import Mathlib

/-!
Shallow embedding of the bankid-sdk transaction lifecycle engine
(`bankid_sdk/_collect.py`, `_cancel.py`, `_auth.py`, `_order.py`,
`_storage.py`, `_config.py`, `errors.py`) together with theorems settling
the specification claims about it.

Conventions of the embedding:
* Python `dict` JSON payloads become structures whose optional keys are
  `Option` fields; a key the source reads unconditionally is a mandatory
  field when its absence is outside every claim's scope, and an `Option`
  field whose `none` produces an explicit decode fault otherwise.
* Exceptions become `Except` results.
* The side effects of a lifecycle operation (provider calls, storage
  deletions, finalize dispatches) are returned as an explicit event trace,
  and the storage state is passed in and returned explicitly.
* Nondeterministic inputs of the source (`uuid4()`, `datetime.now()`) are
  explicit parameters.
-/

namespace BankIDSDK

/-- Enumeration `CollectStatus` from `_collect.py`. -/
inductive CollectStatus where
  | PENDING
  | COMPLETE
  | FAILED
deriving DecidableEq, Repr

/-- Enumeration `PendingHintCode` from `_collect.py`; the string value of
each member is given by `pendingHintString`. -/
inductive PendingHintCode where
  | OUTSTANDING_TRANSACTION
  | NO_CLIENT
  | STARTED
  | USER_MRTD
  | USER_CALL_CONFIRM
  | USER_SIGN
  | UNKNOWN
deriving DecidableEq, Repr

/-- Enumeration `FailedHintCode` from `_collect.py`. -/
inductive FailedHintCode where
  | EXPIRED_TRANSACTION
  | CERTIFICATE_ERR
  | USER_CANCEL
  | CANCELLED
  | START_FAILED
  | USER_DECLINED_CALL
  | UNKNOWN
deriving DecidableEq, Repr

/-- String values of the `PendingHintCode` members. -/
def pendingHintStrings : List String :=
  ["outstandingTransaction", "noClient", "started", "userMrtd",
   "userCallConfirm", "userSign", "unknown"]

/-- String values of the `FailedHintCode` members. -/
def failedHintStrings : List String :=
  ["expiredTransaction", "certificateErr", "userCancel", "cancelled",
   "startFailed", "userDeclinedCall", "unknown"]

/-- Embeds `PendingHintCode(value)` wrapped in the source's
`try/except ValueError` fallback to `UNKNOWN`. -/
def pendingHintCodeFromString (s : String) : PendingHintCode :=
  match s with
  | "outstandingTransaction" => .OUTSTANDING_TRANSACTION
  | "noClient" => .NO_CLIENT
  | "started" => .STARTED
  | "userMrtd" => .USER_MRTD
  | "userCallConfirm" => .USER_CALL_CONFIRM
  | "userSign" => .USER_SIGN
  | _ => .UNKNOWN

/-- Embeds `FailedHintCode(value)` wrapped in the source's
`try/except ValueError` fallback to `UNKNOWN`. -/
def failedHintCodeFromString (s : String) : FailedHintCode :=
  match s with
  | "expiredTransaction" => .EXPIRED_TRANSACTION
  | "certificateErr" => .CERTIFICATE_ERR
  | "userCancel" => .USER_CANCEL
  | "cancelled" => .CANCELLED
  | "startFailed" => .START_FAILED
  | "userDeclinedCall" => .USER_DECLINED_CALL
  | _ => .UNKNOWN

/-- Embeds `CollectStatus(value)`: `none` models the `ValueError` raised on
a string outside the enumeration. -/
def collectStatusFromString (s : String) : Option CollectStatus :=
  match s with
  | "pending" => some .PENDING
  | "complete" => some .COMPLETE
  | "failed" => some .FAILED
  | _ => none

/-- Dataclass `User` from `_collect.py`. -/
structure User where
  personal_number : String
  name : String
  given_name : String
  surname : String
deriving DecidableEq, Repr

/-- Dataclass `Device` from `_collect.py`. -/
structure Device where
  ip_address : String
  uhi : Option String
deriving DecidableEq, Repr

/-- Dataclass `StepUp` from `_collect.py`. -/
structure StepUp where
  mrtd : Bool
deriving DecidableEq, Repr

/-- Dataclass `CompletionData` from `_collect.py`. -/
structure CompletionData where
  user : User
  device : Device
  bankid_issue_date : String
  step_up : Option StepUp
  signature : String
  ocsp_response : String
deriving DecidableEq, Repr

/-- Union `CollectResponse` of the dataclasses `PendingCollect`,
`CompleteCollect` and `FailedCollect` from `_collect.py`. -/
inductive CollectResponse where
  | PendingCollect (order_ref : String) (hint_code : PendingHintCode)
  | CompleteCollect (order_ref : String) (completion_data : CompletionData)
  | FailedCollect (order_ref : String) (hint_code : FailedHintCode)
deriving DecidableEq, Repr

/-- JSON sub-payload `completionData.user` of a collect response. -/
structure UserPayload where
  personalNumber : String
  name : String
  givenName : String
  surname : String
deriving DecidableEq, Repr

/-- JSON sub-payload `completionData.device` of a collect response; `uhi`
is read with `.get` in the source, so its absence is not an error. -/
structure DevicePayload where
  ipAddress : String
  uhi : Option String
deriving DecidableEq, Repr

/-- JSON sub-payload `completionData.stepUp` of a collect response. -/
structure StepUpPayload where
  mrtd : Bool
deriving DecidableEq, Repr

/-- JSON sub-payload `completionData` of a collect response; `stepUp` is
read with `.get` in the source, so its absence means "no step-up". -/
structure CompletionPayload where
  user : UserPayload
  device : DevicePayload
  bankIdIssueDate : String
  stepUp : Option StepUpPayload
  signature : String
  ocspResponse : String
deriving DecidableEq, Repr

/-- Parsed JSON body of a collect response. The keys the source indexes
unconditionally but which a payload may lack (`hintCode`,
`completionData`) are `Option` fields whose absence models a `KeyError`. -/
structure CollectPayload where
  status : String
  orderRef : String
  hintCode : Option String
  completionData : Option CompletionPayload
deriving DecidableEq, Repr

/-- Unrecoverable faults of `process_collect_response`: a `status`
discriminator outside the enumeration (`ValueError`) or a `KeyError` on a
missing mandatory key. -/
inductive DecodeFault where
  | invalidStatus (s : String)
  | missingHintCode
  | missingCompletionData
deriving DecidableEq, Repr

/-- Embeds `process_collect_response` from `_collect.py` (body decoding;
the `raise_for_status` transport precondition is outside the model). -/
def process_collect_response (payload : CollectPayload) :
    Except DecodeFault CollectResponse :=
  match collectStatusFromString payload.status with
  | none => .error (.invalidStatus payload.status)
  | some status =>
    let order_ref := payload.orderRef
    match status with
    | .PENDING =>
      match payload.hintCode with
      | none => .error .missingHintCode
      | some s => .ok (.PendingCollect order_ref (pendingHintCodeFromString s))
    | .COMPLETE =>
      match payload.completionData with
      | none => .error .missingCompletionData
      | some cd =>
        .ok (.CompleteCollect order_ref
          { user :=
              { personal_number := cd.user.personalNumber
                name := cd.user.name
                given_name := cd.user.givenName
                surname := cd.user.surname }
            device := { ip_address := cd.device.ipAddress, uhi := cd.device.uhi }
            bankid_issue_date := cd.bankIdIssueDate
            step_up := cd.stepUp.map (fun su => { mrtd := su.mrtd })
            signature := cd.signature
            ocsp_response := cd.ocspResponse })
    | .FAILED =>
      match payload.hintCode with
      | none => .error .missingHintCode
      | some s => .ok (.FailedCollect order_ref (failedHintCodeFromString s))

/-- Closed taxonomy of `BankIDAPIError` subclasses from `errors.py`. -/
inductive APIErrorKind where
  | AlreadyInProgress
  | InvalidParameters
  | UnknownError
  | Unauthorized
  | NotFound
  | MethodNotAllowed
  | RequestTimeout
  | UnsupportedMediaType
  | InternalServerError
  | ServiceUnavailable
deriving DecidableEq, Repr

/-- Embeds the `error_map` mapping from `errors.py`, keyed by
`(status_code, errorCode)`. -/
def error_map : List ((Nat × String) × APIErrorKind) :=
  [((400, "alreadyInProgress"), .AlreadyInProgress),
   ((400, "invalidParameters"), .InvalidParameters),
   ((401, "unauthorized"), .Unauthorized),
   ((403, "unauthorized"), .Unauthorized),
   ((404, "notFound"), .NotFound),
   ((405, "methodNotAllowed"), .MethodNotAllowed),
   ((408, "requestTimeout"), .RequestTimeout),
   ((415, "unsupportedMediaType"), .UnsupportedMediaType),
   ((500, "internalError"), .InternalServerError),
   ((503, "maintenance"), .ServiceUnavailable)]

/-- Embeds the `httpx.HTTPStatusError` branch of `httpx_error_hook` from
`errors.py`. `body = none` models a response whose JSON does not parse;
`body = some c` models parsed JSON whose optional `errorCode` key is `c`.
The source's `error_map.get((status, code), UnknownError)` default lookup
becomes an association-list lookup with `UnknownError` fallback (a `none`
error code never equals a string key of the map). -/
def httpx_error_hook (status : Nat) (body : Option (Option String)) :
    APIErrorKind :=
  match body with
  | none => .UnknownError
  | some errorCode =>
    match errorCode with
    | none => .UnknownError
    | some code => (List.lookup (status, code) error_map).getD .UnknownError

/-- Operation discriminator, the `Literal["auth", "sign"]` of the source. -/
inductive Operation where
  | auth
  | sign
deriving DecidableEq, Repr

/-- Dataclass `OrderResponse` from `_order.py`; `start_time` is a POSIX
timestamp in seconds, modelled as a rational. -/
structure OrderResponse where
  order_ref : String
  auto_start_token : String
  qr_start_token : String
  qr_start_secret : String
  start_time : ℚ
deriving DecidableEq, Repr

/-- Dataclass `Transaction` from `_order.py`. The opaque
action-supplied `context` is modelled as a string, since no core code
inspects it. -/
structure Transaction where
  order_response : OrderResponse
  operation : Operation
  action_name : String
  context : String
deriving DecidableEq, Repr

/-- Storage contents of `MemoryStorage` from `_storage.py`: the dict
`content` as an association list with unique keys. -/
abbrev StorageState := List (String × Transaction)

/-- Embeds `MemoryStorage.save`: the store mints the identifier (the
`uuid4()` outcome is the explicit `fresh` parameter), persists the
transaction under it and returns it. -/
def memorySave (fresh : String) (storage : StorageState)
    (transaction : Transaction) : String × StorageState :=
  (fresh, storage ++ [(fresh, transaction)])

/-- Embeds `MemoryStorage.load`: `self.content.get(key)` on the dict. -/
def memoryLoad (storage : StorageState) (key : String) : Option Transaction :=
  List.lookup key storage

/-- Embeds `MemoryStorage.delete`: `del self.content[key]` with a
suppressed `KeyError`. -/
def memoryDelete (storage : StorageState) (key : String) : StorageState :=
  List.filter (fun p => p.1 != key) storage

/-- Truncation of a 32-bit word, the `% 2 ** 32` of every SHA-256 step. -/
def u32 (x : Nat) : Nat := x % 4294967296

/-- Right rotation of a 32-bit word. -/
def rotr (n x : Nat) : Nat := (x >>> n) ||| ((x <<< (32 - n)) % 4294967296)

/-- SHA-256 choice function. -/
def shaCh (x y z : Nat) : Nat := (x &&& y) ^^^ ((x ^^^ 4294967295) &&& z)

/-- SHA-256 majority function. -/
def shaMaj (x y z : Nat) : Nat := (x &&& y) ^^^ (x &&& z) ^^^ (y &&& z)

/-- SHA-256 big sigma 0. -/
def bsig0 (x : Nat) : Nat := rotr 2 x ^^^ rotr 13 x ^^^ rotr 22 x

/-- SHA-256 big sigma 1. -/
def bsig1 (x : Nat) : Nat := rotr 6 x ^^^ rotr 11 x ^^^ rotr 25 x

/-- SHA-256 small sigma 0. -/
def ssig0 (x : Nat) : Nat := rotr 7 x ^^^ rotr 18 x ^^^ (x >>> 3)

/-- SHA-256 small sigma 1. -/
def ssig1 (x : Nat) : Nat := rotr 17 x ^^^ rotr 19 x ^^^ (x >>> 10)

/-- SHA-256 round constants (decimal rendering of the standard table). -/
def sha256K : List Nat :=
  [1116352408, 1899447441, 3049323471, 3921009573,
   961987163, 1508970993, 2453635748, 2870763221,
   3624381080, 310598401, 607225278, 1426881987,
   1925078388, 2162078206, 2614888103, 3248222580,
   3835390401, 4022224774, 264347078, 604807628,
   770255983, 1249150122, 1555081692, 1996064986,
   2554220882, 2821834349, 2952996808, 3210313671,
   3336571891, 3584528711, 113926993, 338241895,
   666307205, 773529912, 1294757372, 1396182291,
   1695183700, 1986661051, 2177026350, 2456956037,
   2730485921, 2820302411, 3259730800, 3345764771,
   3516065817, 3600352804, 4094571909, 275423344,
   430227734, 506948616, 659060556, 883997877,
   958139571, 1322822218, 1537002063, 1747873779,
   1955562222, 2024104815, 2227730452, 2361852424,
   2428436474, 2756734187, 3204031479, 3329325298]

/-- SHA-256 initial hash state. -/
structure Hash8 where
  a : Nat
  b : Nat
  c : Nat
  d : Nat
  e : Nat
  f : Nat
  g : Nat
  h : Nat
deriving DecidableEq, Repr

/-- SHA-256 initial hash value (decimal rendering of the standard
table). -/
def sha256H0 : Hash8 :=
  ⟨1779033703, 3144134277, 1013904242, 2773480762,
   1359893119, 2600822924, 528734635, 1541459225⟩

/-- Big-endian byte rendering of a length-in-bits value on 8 bytes. -/
def lengthBytes (bits : Nat) : List Nat :=
  (List.range 8).map (fun i => (bits >>> (8 * (7 - i))) &&& 255)

/-- SHA-256 message padding. -/
def sha256Pad (msg : List Nat) : List Nat :=
  let len := msg.length
  let k := (119 - len % 64) % 64
  msg ++ [128] ++ List.replicate k 0 ++ lengthBytes (8 * len)

/-- Big-endian 32-bit words of a byte list. -/
def bytesToWords (bytes : List Nat) : List Nat :=
  (List.range (bytes.length / 4)).map fun i =>
    bytes.getD (4 * i) 0 * 16777216 + bytes.getD (4 * i + 1) 0 * 65536 +
      bytes.getD (4 * i + 2) 0 * 256 + bytes.getD (4 * i + 3) 0

/-- Big-endian bytes of a 32-bit word. -/
def wordToBytes (w : Nat) : List Nat :=
  [(w >>> 24) &&& 255, (w >>> 16) &&& 255, (w >>> 8) &&& 255, w &&& 255]

/-- SHA-256 message schedule: extends the 16 block words to 64. -/
def sha256Schedule (ws : List Nat) : List Nat :=
  (List.range 48).foldl
    (fun w _ =>
      let n := w.length
      w ++ [u32 (ssig1 (w.getD (n - 2) 0) + w.getD (n - 7) 0 +
                   ssig0 (w.getD (n - 15) 0) + w.getD (n - 16) 0)])
    ws

/-- One SHA-256 compression round, consuming a `(K, W)` pair. -/
def compressStep (st : Hash8) (kw : Nat × Nat) : Hash8 :=
  let t1 := u32 (st.h + bsig1 st.e + shaCh st.e st.f st.g + kw.1 + kw.2)
  let t2 := u32 (bsig0 st.a + shaMaj st.a st.b st.c)
  ⟨u32 (t1 + t2), st.a, st.b, st.c, u32 (st.d + t1), st.e, st.f, st.g⟩

/-- SHA-256 compression of one 64-byte block into the running hash. -/
def compressBlock (hh : Hash8) (block : List Nat) : Hash8 :=
  let ws := sha256Schedule (bytesToWords block)
  let st := (List.zip sha256K ws).foldl compressStep hh
  ⟨u32 (hh.a + st.a), u32 (hh.b + st.b), u32 (hh.c + st.c), u32 (hh.d + st.d),
   u32 (hh.e + st.e), u32 (hh.f + st.f), u32 (hh.g + st.g), u32 (hh.h + st.h)⟩

/-- SHA-256 digest of a byte list, as 32 bytes. -/
def sha256 (msg : List Nat) : List Nat :=
  let padded := sha256Pad msg
  let blocks := (List.range (padded.length / 64)).map
    fun i => (padded.drop (64 * i)).take 64
  let hh := blocks.foldl compressBlock sha256H0
  [hh.a, hh.b, hh.c, hh.d, hh.e, hh.f, hh.g, hh.h].flatMap wordToBytes

/-- HMAC-SHA-256 of a message under a key (RFC 2104, block size 64), the
`hmac.new(key, msg, hashlib.sha256)` of the source. -/
def hmacSha256 (key msg : List Nat) : List Nat :=
  let key1 := if 64 < key.length then sha256 key else key
  let key2 := key1 ++ List.replicate (64 - key1.length) 0
  let opad := key2.map (fun b => b ^^^ 92)
  let ipad := key2.map (fun b => b ^^^ 54)
  sha256 (opad ++ sha256 (ipad ++ msg))

/-- Lowercase hexadecimal character of a nibble. -/
def hexNibbleChar (n : Nat) : Char :=
  if n < 10 then Char.ofNat (48 + n) else Char.ofNat (87 + n)

/-- Lowercase hexadecimal string of a byte list, Python's `.hexdigest()`. -/
def hexdigest (bytes : List Nat) : String :=
  String.mk (bytes.flatMap fun b => [hexNibbleChar (b / 16 % 16), hexNibbleChar (b % 16)])

/-- UTF-8 bytes of a character. -/
def utf8Bytes (c : Char) : List Nat :=
  let n := c.toNat
  if n < 128 then [n]
  else if n < 2048 then [192 + n / 64, 128 + n % 64]
  else if n < 65536 then [224 + n / 4096, 128 + n / 64 % 64, 128 + n % 64]
  else [240 + n / 262144, 128 + n / 4096 % 64, 128 + n / 64 % 64, 128 + n % 64]

/-- UTF-8 encoding of a string, Python's `str.encode()`. -/
def strEncode (s : String) : List Nat := s.data.flatMap utf8Bytes

/-- Truncation of a rational toward zero, Python's `int()` on a float. -/
def ratTrunc (q : ℚ) : ℤ := q.num.tdiv (q.den : ℤ)

/-- Embeds `generate_qr_code` from `_order.py`; the current instant
`datetime.now(tz=timezone.utc).timestamp()` is the explicit `now`
parameter, in POSIX seconds. -/
def generate_qr_code (order : OrderResponse) (now : ℚ) : String :=
  let qr_time := toString (ratTrunc (now - order.start_time))
  String.intercalate "."
    ["bankid", order.qr_start_token, qr_time,
     hexdigest (hmacSha256 (strEncode order.qr_start_secret) (strEncode qr_time))]

/-- Modelled from the spec (for the QR refinement claim): the QR payload
format sentence of the spec, written as plain concatenation:
`"bankid." + qr_start_token + "." + elapsed + "." +
lowercase_hex_HMAC_SHA256(key=qr_start_secret, msg=elapsed)` where
`elapsed` is the elapsed whole seconds rendered as a decimal string. -/
def qr_payload_spec (order : OrderResponse) (now : ℚ) : String :=
  let elapsed := toString (ratTrunc (now - order.start_time))
  "bankid." ++ order.qr_start_token ++ "." ++ elapsed ++ "." ++
    hexdigest (hmacSha256 (strEncode order.qr_start_secret) (strEncode elapsed))

/-- Observable side effects of a lifecycle operation, in execution order:
a provider `collect` call, a storage deletion, a dispatch of an action's
`finalize`, a provider `cancel` call. -/
inductive Event where
  | collectCall (order_ref : String)
  | storageDelete (transaction_id : String)
  | finalizeCall (operation : Operation) (action_name : String)
  | cancelCall (order_ref : String)
deriving DecidableEq, Repr

/-- Failure modes of `check`/`acheck`: the `TransactionExpired` exception
of the sync path, and the bare `AssertionError`s and `KeyError` of the
async path. -/
inductive CheckFailure where
  | transactionExpired
  | assertTransactionFailed
  | actionKeyError (key : Operation × String)
  | assertNotAsyncAction
deriving DecidableEq, Repr

/-- Registered action type: the registry value resolved from
`config.ACTIONS`. Only the capabilities the engine inspects are kept: the
subclass test `issubclass(action, AsyncAction)` becomes `isAsync`, and the
value an async `finalize` returns becomes `finalizeData`. -/
structure ActionModel where
  isAsync : Bool
  finalizeData : String
deriving DecidableEq, Repr

/-- Contents of `config.ACTIONS`: a dict keyed by `(operation, name)`. -/
abbrev ActionRegistry := List ((Operation × String) × ActionModel)

/-- Holds when a collect result is terminal, the source's
`isinstance(result, (CompleteCollect, FailedCollect))`. -/
def isTerminal : CollectResponse → Bool
  | .CompleteCollect _ _ => true
  | .FailedCollect _ _ => true
  | .PendingCollect _ _ => false

/-- Embeds `check` from `_collect.py`. `collect` is the provider oracle
(`client.collect` already decoded into a `CollectResponse`), `actions` is
`config.ACTIONS`, `storage` is `config.STORAGE`, and `now` is the instant
at which a QR code would be generated. Returns the outcome, the new
storage state and the event trace. -/
def check (collect : String → CollectResponse) (actions : ActionRegistry)
    (storage : StorageState) (transaction_id : String) (now : ℚ) :
    Except CheckFailure (CollectResponse × Option String) × StorageState × List Event :=
  match memoryLoad storage transaction_id with
  | none => (.error .transactionExpired, storage, [])
  | some transaction =>
    let result := collect transaction.order_response.order_ref
    let collectEvents := [Event.collectCall transaction.order_response.order_ref]
    let (storage1, deleteEvents) :=
      if isTerminal result then
        (memoryDelete storage transaction_id, [Event.storageDelete transaction_id])
      else (storage, ([] : List Event))
    let finalizeEvents :=
      match result with
      | .CompleteCollect _ _ =>
        match List.lookup (transaction.operation, transaction.action_name) actions with
        | some _ => [Event.finalizeCall transaction.operation transaction.action_name]
        | none => []
      | _ => []
    let qr_code :=
      match result with
      | .PendingCollect _ hint =>
        if hint = .OUTSTANDING_TRANSACTION ∨ hint = .NO_CLIENT then
          some (generate_qr_code transaction.order_response now)
        else none
      | _ => none
    (.ok (result, qr_code), storage1, collectEvents ++ deleteEvents ++ finalizeEvents)

/-- Embeds `acheck` from `_collect.py`. Differences from `check` that the
source exhibits: a missing transaction trips `assert transaction is not
None` (not `TransactionExpired`); the action is resolved with
`config.ACTIONS[...]` (a `KeyError` when absent, not a silent skip); the
resolved action must satisfy `assert issubclass(action, AsyncAction)`;
and the `finalize` return value is passed through. -/
def acheck (collect : String → CollectResponse) (actions : ActionRegistry)
    (storage : StorageState) (transaction_id : String) (now : ℚ) :
    Except CheckFailure (CollectResponse × Option String × Option String) ×
      StorageState × List Event :=
  match memoryLoad storage transaction_id with
  | none => (.error .assertTransactionFailed, storage, [])
  | some transaction =>
    let result := collect transaction.order_response.order_ref
    let collectEvents := [Event.collectCall transaction.order_response.order_ref]
    let (storage1, deleteEvents) :=
      if isTerminal result then
        (memoryDelete storage transaction_id, [Event.storageDelete transaction_id])
      else (storage, ([] : List Event))
    match result with
    | .CompleteCollect _ _ =>
      match List.lookup (transaction.operation, transaction.action_name) actions with
      | none =>
        (.error (.actionKeyError (transaction.operation, transaction.action_name)),
         storage1, collectEvents ++ deleteEvents)
      | some action =>
        if action.isAsync then
          (.ok (result, none, some action.finalizeData), storage1,
           collectEvents ++ deleteEvents ++
             [Event.finalizeCall transaction.operation transaction.action_name])
        else
          (.error .assertNotAsyncAction, storage1, collectEvents ++ deleteEvents)
    | .PendingCollect _ hint =>
      let qr_code :=
        if hint = .OUTSTANDING_TRANSACTION ∨ hint = .NO_CLIENT then
          some (generate_qr_code transaction.order_response now)
        else none
      (.ok (result, qr_code, none), storage1, collectEvents ++ deleteEvents)
    | .FailedCollect _ _ =>
      (.ok (result, none, none), storage1, collectEvents ++ deleteEvents)

/-- Embeds `cancel` from `_cancel.py`, assuming the provider cancel call
succeeds. Returns the new storage state and the event trace. -/
def cancel (storage : StorageState) (transaction_id : String) :
    StorageState × List Event :=
  match memoryLoad storage transaction_id with
  | none => (storage, [])
  | some transaction =>
    (memoryDelete storage transaction_id,
     [Event.cancelCall transaction.order_response.order_ref,
      Event.storageDelete transaction_id])

/-- Result tuple `AuthOrder` of `init_auth` from `_auth.py`. -/
structure AuthOrder where
  transaction_id : String
  auto_start_token : String
deriving DecidableEq, Repr

/-- Embeds the identifier and persistence flow of `init_auth` from
`_auth.py` over `MemoryStorage`. `engineFresh` is the engine's own
`uuid.uuid4()` outcome, `storeFresh` the one `MemoryStorage.save` mints,
and `order_response` the decoded provider response. The source binds the
engine-minted identifier, persists the transaction through
`config.STORAGE.save` while discarding the identifier that `save`
returns, and hands the engine-minted identifier back to the caller. (The
source also passes a `transaction_id=` keyword to `Transaction`, which
the dataclass does not accept; the model elides that argument to exhibit
the identifier flow.) -/
def init_auth (engineFresh storeFresh : String) (order_response : OrderResponse)
    (action_name : String) (context : String) (storage : StorageState) :
    AuthOrder × StorageState :=
  let transaction_id := engineFresh
  let (_mintedId, storage1) := memorySave storeFresh storage
    { order_response := order_response
      operation := .auth
      action_name := action_name
      context := context }
  ({ transaction_id := transaction_id
     auto_start_token := order_response.auto_start_token }, storage1)

/-- Declared action type as `configure` from `_config.py` sees it: its
operation affinity (`issubclass(action, AuthAction)`), its class-level
`name`, and the registry value it registers as. -/
structure ActionDecl where
  isAuth : Bool
  name : String
  impl : ActionModel
deriving DecidableEq, Repr

/-- Registry key of a declared action in the `configure` comprehension:
`("auth" if issubclass(action, AuthAction) ... else "sign", action.name)`. -/
def actionKey (a : ActionDecl) : Operation × String :=
  (if a.isAuth then .auth else .sign, a.name)

/-- Insertion into a dict modelled as an association list with unique
keys: an existing key's value is replaced, a new key is appended. -/
def dictInsert (m : ActionRegistry) (k : Operation × String) (v : ActionModel) :
    ActionRegistry :=
  if (List.lookup k m).isSome then
    m.map (fun p => if p.1 = k then (k, v) else p)
  else m ++ [(k, v)]

/-- Embeds the `actions` branch of `configure` from `_config.py`: the
dict comprehension `{key(action): action for action in actions}`, in
which a repeated key silently overwrites the earlier entry. -/
def configure_actions (actions : List ActionDecl) : ActionRegistry :=
  actions.foldl (fun m a => dictInsert m (actionKey a) a.impl) []

/-- Last-wins resolution of an action list at a registry key: the value
the `configure` dict comprehension keeps for that key. -/
def lastWins (actions : List ActionDecl) (k : Operation × String) :
    Option ActionModel :=
  actions.foldl (fun acc a => if actionKey a = k then some a.impl else acc) none

/-- The sixteen lowercase hexadecimal characters. -/
def hexChars : List Char := "0123456789abcdef".data

/-- Recognizes a finalize-dispatch event in a trace. -/
def isFinalizeEvent : Event → Bool
  | .finalizeCall _ _ => true
  | _ => false

/-- Recognizes a storage-deletion event in a trace. -/
def isDeleteEvent : Event → Bool
  | .storageDelete _ => true
  | _ => false

deriving instance DecidableEq for Except

/-! Helper lemmas about the storage and registry dictionaries. -/

/-- Deleting a key from the storage dict makes it unloadable. -/
theorem memoryLoad_memoryDelete_self (storage : StorageState) (k : String) :
    memoryLoad (memoryDelete storage k) k = none := by
  induction storage with
  | nil => rfl
  | cons p t ih =>
    by_cases hp : p.1 = k
    · have hb : (p.1 != k) = false := by simp [bne, hp]
      simpa [memoryDelete, memoryLoad, List.filter_cons, hb] using ih
    · have hb : (p.1 != k) = true := by simp [bne, hp]
      have hk : (k == p.1) = false := by simp [Ne.symm hp]
      simp only [memoryDelete, memoryLoad] at ih ⊢
      simp [List.filter_cons, hb, List.lookup, hk, ih]

/-- Deleting one key leaves every other key's load unchanged. -/
theorem memoryLoad_memoryDelete_ne (storage : StorageState) (k k' : String)
    (hne : k' ≠ k) : memoryLoad (memoryDelete storage k) k' = memoryLoad storage k' := by
  induction storage with
  | nil => rfl
  | cons p t ih =>
    simp only [memoryDelete, memoryLoad] at ih ⊢
    by_cases hp : p.1 = k
    · have hb : (p.1 != k) = false := by simp [bne, hp]
      have hk : (k' == p.1) = false := by simp [hp, hne]
      simp [List.filter_cons, hb, List.lookup, hk, ih]
    · have hb : (p.1 != k) = true := by simp [bne, hp]
      by_cases hk' : k' = p.1
      · simp [List.filter_cons, hb, List.lookup, hk']
      · have hk : (k' == p.1) = false := by simp [hk']
        simp [List.filter_cons, hb, List.lookup, hk, ih]

/-- An association-list lookup of a key outside the key column is `none`. -/
theorem lookup_eq_none_of_not_mem_keys {α β : Type} [BEq α] [LawfulBEq α]
    (l : List (α × β)) (k : α) (h : k ∉ l.map Prod.fst) :
    List.lookup k l = none := by
  induction l with
  | nil => rfl
  | cons p t ih =>
    simp only [List.map, List.mem_cons, not_or] at h
    have hk : (k == p.1) = false := by simp [h.1]
    simp [List.lookup, hk, ih h.2]

/-- Cons unfolding of an association-list lookup, as a propositional if. -/
theorem lookup_cons {α β : Type} [BEq α] [LawfulBEq α] [DecidableEq α]
    (k : α) (p : α × β) (t : List (α × β)) :
    List.lookup k (p :: t) = if k = p.1 then some p.2 else List.lookup k t := by
  rcases p with ⟨a, b⟩
  by_cases h : k = a
  · simp [List.lookup, h]
  · have hb : (k == a) = false := by simp [h]
    simp [List.lookup, hb, h]

/-- Replacing the entries of key `k` does not change the lookup of a
different key. -/
theorem lookup_replaceAll_ne (m : ActionRegistry) (k k' : Operation × String)
    (v : ActionModel) (hne : k' ≠ k) :
    List.lookup k' (m.map (fun p => if p.1 = k then (k, v) else p)) =
      List.lookup k' m := by
  induction m with
  | nil => rfl
  | cons p t ih =>
    by_cases hp : p.1 = k
    · have hk'p : ¬k' = p.1 := by rw [hp]; exact hne
      simp only [List.map, if_pos hp, lookup_cons, if_neg hne, if_neg hk'p]
      exact ih
    · simp only [List.map, if_neg hp, lookup_cons]
      by_cases hk' : k' = p.1 <;> simp [hk', ih]

/-- Replacing the entries of a present key `k` rewrites `k`'s lookup to
the new value and leaves other lookups unchanged. -/
theorem lookup_replaceAll (m : ActionRegistry) (k k' : Operation × String)
    (v : ActionModel) (hsome : (List.lookup k m).isSome = true) :
    List.lookup k' (m.map (fun p => if p.1 = k then (k, v) else p)) =
      if k' = k then some v else List.lookup k' m := by
  induction m with
  | nil => simp [List.lookup] at hsome
  | cons p t ih =>
    by_cases hp : p.1 = k
    · by_cases hk : k' = k
      · simp [List.map, if_pos hp, lookup_cons, hk]
      · have hk'p : ¬k' = p.1 := by rw [hp]; exact hk
        simp only [List.map, if_pos hp, lookup_cons, if_neg hk, if_neg hk'p]
        exact lookup_replaceAll_ne t k k' v hk
    · have hsome' : (List.lookup k t).isSome = true := by
        have hkp : ¬k = p.1 := fun h => hp h.symm
        simpa [lookup_cons, hkp] using hsome
      by_cases hk : k' = k
      · have hk'p : ¬k' = p.1 := by rw [hk]; exact fun h => hp h.symm
        simp only [List.map, if_neg hp, lookup_cons, if_neg hk'p, if_pos hk]
        rw [ih hsome', if_pos hk]
      · simp only [List.map, if_neg hp, lookup_cons]
        by_cases hk' : k' = p.1 <;> simp [hk', ih hsome', hk, hp]

/-- Lookup over an appended singleton. -/
theorem lookup_append_single (m : ActionRegistry) (k k' : Operation × String)
    (v : ActionModel) :
    List.lookup k' (m ++ [(k, v)]) =
      (List.lookup k' m).or (if k' = k then some v else none) := by
  induction m with
  | nil =>
    by_cases hk : k' = k
    · simp [lookup_cons, hk, List.lookup]
    · have hb : (k' == k) = false := by simp [hk]
      simp [List.lookup, hb, hk]
  | cons p t ih =>
    by_cases hk' : k' = p.1 <;> simp [List.cons_append, lookup_cons, hk', ih]

/-- Lookup after the dict insertion `m[k] = v`. -/
theorem lookup_dictInsert (m : ActionRegistry) (k k' : Operation × String)
    (v : ActionModel) :
    List.lookup k' (dictInsert m k v) = if k' = k then some v else List.lookup k' m := by
  by_cases hs : (List.lookup k m).isSome = true
  · simpa [dictInsert, hs] using lookup_replaceAll m k k' v hs
  · have hnone : List.lookup k m = none := by
      cases h : List.lookup k m
      · rfl
      · rw [h] at hs; simp at hs
    rw [dictInsert, if_neg (by simp [hnone]), lookup_append_single]
    by_cases hk : k' = k
    · simp [hk, hnone]
    · simp [hk]

/-- Generalized characterization of registry lookup after the
`configure` fold, for an arbitrary starting dict. -/
theorem lookup_configure_foldl (actions : List ActionDecl) (m : ActionRegistry)
    (k : Operation × String) :
    List.lookup k (actions.foldl (fun m a => dictInsert m (actionKey a) a.impl) m) =
      actions.foldl (fun acc a => if actionKey a = k then some a.impl else acc)
        (List.lookup k m) := by
  induction actions generalizing m with
  | nil => rfl
  | cons a rest ih =>
    simp only [List.foldl]
    rw [ih, lookup_dictInsert]
    by_cases h : actionKey a = k
    · simp [h]
    · rw [if_neg (by intro hh; exact h hh.symm), if_neg h]

/-- Registry lookup after `configure` resolves to the last declared
action with that key. -/
theorem lookup_configure_actions (actions : List ActionDecl)
    (k : Operation × String) :
    List.lookup k (configure_actions actions) = lastWins actions k := by
  simpa [List.lookup] using lookup_configure_foldl actions [] k

/-- A last-wins fold started from a present value stays present. -/
theorem foldl_lastWins_isSome (rest : List ActionDecl) (k : Operation × String)
    (v : ActionModel) :
    (rest.foldl (fun acc a => if actionKey a = k then some a.impl else acc)
      (some v)).isSome = true := by
  induction rest generalizing v with
  | nil => rfl
  | cons a t ih => by_cases h : actionKey a = k <;> simp [List.foldl, h, ih]

/-- When some declared action has key `k`, last-wins resolution at `k`
yields a value. -/
theorem lastWins_isSome (actions : List ActionDecl) (k : Operation × String)
    (h : actions.filter (fun a => decide (actionKey a = k)) ≠ []) :
    (lastWins actions k).isSome = true := by
  induction actions with
  | nil => exact absurd rfl h
  | cons a t ih =>
    by_cases hk : actionKey a = k
    · simp only [lastWins, List.foldl, if_pos hk]
      exact foldl_lastWins_isSome t k a.impl
    · have ht : t.filter (fun a => decide (actionKey a = k)) ≠ [] := by
        simpa [List.filter_cons, hk] using h
      simpa [lastWins, List.foldl, hk] using ih ht

/-- A nibble renders to a lowercase hexadecimal character. -/
theorem hexNibbleChar_mem (n : Nat) (h : n < 16) : hexNibbleChar n ∈ hexChars := by
  interval_cases n <;> decide

/-- Every character of a hexadecimal digest is lowercase hexadecimal. -/
theorem hexdigest_lower (bytes : List Nat) :
    ((hexdigest bytes).data.all fun c => decide (c ∈ hexChars)) = true := by
  rw [List.all_eq_true]
  intro c hc
  rw [decide_eq_true_eq]
  simp only [hexdigest] at hc
  rw [List.mem_flatMap] at hc
  obtain ⟨b, _, hcb⟩ := hc
  simp only [List.mem_cons, List.not_mem_nil, or_false] at hcb
  rcases hcb with h | h
  · exact h ▸ hexNibbleChar_mem _ (Nat.mod_lt _ (by norm_num))
  · exact h ▸ hexNibbleChar_mem _ (Nat.mod_lt _ (by norm_num))

/-! Claim theorems. -/

/-- Claim C4: for every transaction id absent from storage, `check` fails
with `TransactionExpired`, leaves storage unchanged and makes no provider
call (the event trace is empty). -/
theorem check_absent_raises_transaction_expired
    (collect : String → CollectResponse) (actions : ActionRegistry)
    (storage : StorageState) (transaction_id : String) (now : ℚ)
    (h : memoryLoad storage transaction_id = none) :
    check collect actions storage transaction_id now =
      (.error .transactionExpired, storage, []) := by
  unfold check
  rw [h]

/-- Witness for C4 at a concrete empty storage. -/
theorem check_absent_raises_transaction_expired_witness :
    memoryLoad [] "tid-1" = none ∧
      check (fun r => .PendingCollect r .STARTED) [] [] "tid-1" 0 =
        (.error .transactionExpired, [], []) :=
  ⟨rfl, check_absent_raises_transaction_expired _ _ _ _ _ rfl⟩

/-- Loading nothing makes `cancel` a no-op. -/
theorem cancel_of_load_none (storage : StorageState) (transaction_id : String)
    (h : memoryLoad storage transaction_id = none) :
    cancel storage transaction_id = (storage, []) := by
  unfold cancel
  rw [h]

/-- A successful first `cancel` deletes the key and performs the provider
cancel call. -/
theorem cancel_of_load_some (storage : StorageState) (transaction_id : String)
    (t : Transaction) (h : memoryLoad storage transaction_id = some t) :
    cancel storage transaction_id =
      (memoryDelete storage transaction_id,
       [.cancelCall t.order_response.order_ref, .storageDelete transaction_id]) := by
  unfold cancel
  rw [h]

/-- Claim C9: after a first successful `cancel` the transaction is gone
from storage, and a second `cancel` of the same identifier produces no
error and no provider cancel call; cancelling an identifier absent from
storage is likewise a silent no-op. -/
theorem cancel_idempotent :
    (∀ (storage : StorageState) (transaction_id : String) (t : Transaction),
        memoryLoad storage transaction_id = some t →
        memoryLoad (cancel storage transaction_id).1 transaction_id = none ∧
        cancel (cancel storage transaction_id).1 transaction_id =
          ((cancel storage transaction_id).1, [])) ∧
    (∀ (storage : StorageState) (transaction_id : String),
        memoryLoad storage transaction_id = none →
        cancel storage transaction_id = (storage, [])) := by
  refine ⟨?_, cancel_of_load_none⟩
  intro storage transaction_id t h
  have h1 : (cancel storage transaction_id).1 = memoryDelete storage transaction_id := by
    rw [cancel_of_load_some storage transaction_id t h]
  have h2 : memoryLoad (cancel storage transaction_id).1 transaction_id = none := by
    rw [h1]
    exact memoryLoad_memoryDelete_self storage transaction_id
  exact ⟨h2, cancel_of_load_none _ _ h2⟩

/-- Witness for C9 at a concrete one-entry storage. -/
theorem cancel_idempotent_witness :
    (memoryLoad
        [("tid-9", ⟨⟨"ref-9", "ast", "qt", "qs", 0⟩, .auth, "LOGIN", "ctx"⟩)] "tid-9" =
      some (⟨⟨"ref-9", "ast", "qt", "qs", 0⟩, .auth, "LOGIN", "ctx"⟩ : Transaction) ∧
      memoryLoad
        (cancel [("tid-9", ⟨⟨"ref-9", "ast", "qt", "qs", 0⟩, .auth, "LOGIN", "ctx"⟩)]
          "tid-9").1 "tid-9" = none ∧
      cancel
        (cancel [("tid-9", ⟨⟨"ref-9", "ast", "qt", "qs", 0⟩, .auth, "LOGIN", "ctx"⟩)]
          "tid-9").1 "tid-9" =
        ((cancel [("tid-9", ⟨⟨"ref-9", "ast", "qt", "qs", 0⟩, .auth, "LOGIN", "ctx"⟩)]
          "tid-9").1, [])) ∧
    (memoryLoad [] "tid-10" = none ∧ cancel [] "tid-10" = ([], [])) :=
  ⟨⟨by decide,
    cancel_idempotent.1
      [("tid-9", ⟨⟨"ref-9", "ast", "qt", "qs", 0⟩, .auth, "LOGIN", "ctx"⟩)] "tid-9"
      ⟨⟨"ref-9", "ast", "qt", "qs", 0⟩, .auth, "LOGIN", "ctx"⟩ (by decide)⟩,
   ⟨by decide, cancel_idempotent.2 [] "tid-10" (by decide)⟩⟩

/-- Claim C6: the error mapper resolves an HTTP-status failure by the
exact `(status, errorCode)` pair — the nine documented mappings (with both
401 and 403 carrying `unauthorized` mapping to `Unauthorized`) — while
every other pair, a body without an `errorCode` key, and an unparseable
body all map to `UnknownError`. -/
theorem httpx_error_hook_exact_pairs :
    (httpx_error_hook 400 (some (some "alreadyInProgress")) = .AlreadyInProgress ∧
     httpx_error_hook 400 (some (some "invalidParameters")) = .InvalidParameters ∧
     httpx_error_hook 401 (some (some "unauthorized")) = .Unauthorized ∧
     httpx_error_hook 403 (some (some "unauthorized")) = .Unauthorized ∧
     httpx_error_hook 404 (some (some "notFound")) = .NotFound ∧
     httpx_error_hook 405 (some (some "methodNotAllowed")) = .MethodNotAllowed ∧
     httpx_error_hook 408 (some (some "requestTimeout")) = .RequestTimeout ∧
     httpx_error_hook 415 (some (some "unsupportedMediaType")) = .UnsupportedMediaType ∧
     httpx_error_hook 500 (some (some "internalError")) = .InternalServerError ∧
     httpx_error_hook 503 (some (some "maintenance")) = .ServiceUnavailable) ∧
    (∀ (status : Nat) (code : String),
        (status, code) ∉ error_map.map Prod.fst →
        httpx_error_hook status (some (some code)) = .UnknownError) ∧
    (∀ status : Nat, httpx_error_hook status none = .UnknownError) ∧
    (∀ status : Nat, httpx_error_hook status (some none) = .UnknownError) := by
  refine ⟨by decide, ?_, fun _ => rfl, fun _ => rfl⟩
  intro status code h
  have hdef : httpx_error_hook status (some (some code)) =
      (List.lookup (status, code) error_map).getD .UnknownError := rfl
  rw [hdef, lookup_eq_none_of_not_mem_keys _ _ h]
  rfl

/-- Witness for C6 at a known code paired with an unexpected status. -/
theorem httpx_error_hook_exact_pairs_witness :
    (400, "notFound") ∉ error_map.map Prod.fst ∧
      httpx_error_hook 400 (some (some "notFound")) = .UnknownError :=
  ⟨by decide, httpx_error_hook_exact_pairs.2.1 400 "notFound" (by decide)⟩

/-- Counterexample to claim C5 as stated: configuring two action types
that collide on the key `(auth, "A")` does not fail — `configure`
returns a registry in which the second action silently replaced the
first. -/
theorem configure_collision_counterexample :
    configure_actions
        [⟨true, "A", ⟨false, "first"⟩⟩, ⟨true, "A", ⟨false, "second"⟩⟩] =
      [((Operation.auth, "A"), ⟨false, "second"⟩)] ∧
    actionKey ⟨true, "A", (⟨false, "first"⟩ : ActionModel)⟩ =
      actionKey ⟨true, "A", (⟨false, "second"⟩ : ActionModel)⟩ ∧
    (⟨false, "first"⟩ : ActionModel) ≠ ⟨false, "second"⟩ := by
  decide

/-- Claim C5 as amended: configuring a list of action types containing a
collision on an `(operation, name)` key raises no configuration error;
the registry resolves the colliding key to the last action declared with
that key (silent overwrite), which is a registered value. -/
theorem configure_collision_last_wins (actions : List ActionDecl)
    (k : Operation × String)
    (h : 2 ≤ (actions.filter fun a => decide (actionKey a = k)).length) :
    List.lookup k (configure_actions actions) = lastWins actions k ∧
    (lastWins actions k).isSome = true := by
  refine ⟨lookup_configure_actions actions k, lastWins_isSome actions k ?_⟩
  intro hnil
  rw [hnil] at h
  simp at h

/-- Witness for C5's amended claim at a concrete colliding list. -/
theorem configure_collision_last_wins_witness :
    2 ≤ (([⟨true, "A", ⟨false, "first"⟩⟩, ⟨true, "A", ⟨false, "second"⟩⟩] :
        List ActionDecl).filter fun a =>
          decide (actionKey a = (Operation.auth, "A"))).length ∧
    (List.lookup (Operation.auth, "A")
        (configure_actions
          [⟨true, "A", ⟨false, "first"⟩⟩, ⟨true, "A", ⟨false, "second"⟩⟩]) =
      lastWins [⟨true, "A", ⟨false, "first"⟩⟩, ⟨true, "A", ⟨false, "second"⟩⟩]
        (Operation.auth, "A") ∧
      (lastWins [⟨true, "A", ⟨false, "first"⟩⟩, ⟨true, "A", ⟨false, "second"⟩⟩]
        (Operation.auth, "A")).isSome = true) :=
  ⟨by decide, configure_collision_last_wins _ _ (by decide)⟩

/-- A pending hint string outside the known enumeration falls back to
`UNKNOWN`. -/
theorem pendingHintCodeFromString_unknown (s : String)
    (h : s ∉ pendingHintStrings) : pendingHintCodeFromString s = .UNKNOWN := by
  simp only [pendingHintStrings, List.mem_cons, List.not_mem_nil, or_false,
    not_or] at h
  unfold pendingHintCodeFromString
  split <;> simp_all

/-- A failed hint string outside the known enumeration falls back to
`UNKNOWN`. -/
theorem failedHintCodeFromString_unknown (s : String)
    (h : s ∉ failedHintStrings) : failedHintCodeFromString s = .UNKNOWN := by
  simp only [failedHintStrings, List.mem_cons, List.not_mem_nil, or_false,
    not_or] at h
  unfold failedHintCodeFromString
  split <;> simp_all

/-- Claim C7: decoding a collect response with status `pending` or
`failed` whose hint code string lies outside the known enumeration
succeeds (never fails) and yields the respective `UNKNOWN` member. -/
theorem process_collect_unknown_hint_fallback :
    (∀ (p : CollectPayload) (s : String),
        p.status = "pending" → p.hintCode = some s → s ∉ pendingHintStrings →
        process_collect_response p = .ok (.PendingCollect p.orderRef .UNKNOWN)) ∧
    (∀ (p : CollectPayload) (s : String),
        p.status = "failed" → p.hintCode = some s → s ∉ failedHintStrings →
        process_collect_response p = .ok (.FailedCollect p.orderRef .UNKNOWN)) := by
  constructor
  · intro p s hst hhc hmem
    unfold process_collect_response
    rw [hst, hhc]
    simp [collectStatusFromString, pendingHintCodeFromString_unknown s hmem]
  · intro p s hst hhc hmem
    unfold process_collect_response
    rw [hst, hhc]
    simp [collectStatusFromString, failedHintCodeFromString_unknown s hmem]

/-- Witness for C7 at concrete payloads carrying the hint code
"mysteryHint". -/
theorem process_collect_unknown_hint_fallback_witness :
    ((⟨"pending", "ref-7", some "mysteryHint", none⟩ : CollectPayload).status =
        "pending" ∧
      (⟨"pending", "ref-7", some "mysteryHint", none⟩ : CollectPayload).hintCode =
        some "mysteryHint" ∧
      "mysteryHint" ∉ pendingHintStrings ∧
      process_collect_response ⟨"pending", "ref-7", some "mysteryHint", none⟩ =
        .ok (.PendingCollect "ref-7" .UNKNOWN)) ∧
    ((⟨"failed", "ref-8", some "mysteryHint", none⟩ : CollectPayload).status =
        "failed" ∧
      (⟨"failed", "ref-8", some "mysteryHint", none⟩ : CollectPayload).hintCode =
        some "mysteryHint" ∧
      "mysteryHint" ∉ failedHintStrings ∧
      process_collect_response ⟨"failed", "ref-8", some "mysteryHint", none⟩ =
        .ok (.FailedCollect "ref-8" .UNKNOWN)) :=
  ⟨⟨rfl, rfl, by decide,
    process_collect_unknown_hint_fallback.1
      ⟨"pending", "ref-7", some "mysteryHint", none⟩ "mysteryHint" rfl rfl
      (by decide)⟩,
   ⟨rfl, rfl, by decide,
    process_collect_unknown_hint_fallback.2
      ⟨"failed", "ref-8", some "mysteryHint", none⟩ "mysteryHint" rfl rfl
      (by decide)⟩⟩

/-- Counterexample to claim C1 as stated: a `check` call whose collect
result is `CompleteCollect` and whose `(operation, action_name)` key is
absent from the registry does not fail at all — it returns `.ok` (there
is no `ActionNotFoundError` in the code), dispatches no finalize, and
removes the transaction from storage. -/
theorem check_missing_action_counterexample :
    check
        (fun _ => .CompleteCollect "order-ref"
          ⟨⟨"190000000000", "John Smith", "John", "Smith"⟩,
           ⟨"127.0.0.1", none⟩, "2023-11-29", none, "signature", "ocsp"⟩)
        []
        [("tid-1", ⟨⟨"order-ref", "ast", "qr-token", "qr-secret", 0⟩, .auth,
          "GONE", "ctx"⟩)]
        "tid-1" 0 =
      (.ok (.CompleteCollect "order-ref"
          ⟨⟨"190000000000", "John Smith", "John", "Smith"⟩,
           ⟨"127.0.0.1", none⟩, "2023-11-29", none, "signature", "ocsp"⟩, none),
       [], [.collectCall "order-ref", .storageDelete "tid-1"]) := by
  decide

/-- Claim C1 as amended: when `check` completes an order whose
`(operation, action_name)` key is not registered, it raises no error —
the finalize dispatch is silently skipped — and the transaction is
nonetheless removed from storage. -/
theorem check_missing_action_is_silent
    (collect : String → CollectResponse) (actions : ActionRegistry)
    (storage : StorageState) (transaction_id : String) (now : ℚ)
    (t : Transaction) (ref : String) (cd : CompletionData)
    (hload : memoryLoad storage transaction_id = some t)
    (hres : collect t.order_response.order_ref = .CompleteCollect ref cd)
    (haction : List.lookup (t.operation, t.action_name) actions = none) :
    check collect actions storage transaction_id now =
      (.ok (.CompleteCollect ref cd, none),
       memoryDelete storage transaction_id,
       [.collectCall t.order_response.order_ref, .storageDelete transaction_id]) ∧
    memoryLoad (memoryDelete storage transaction_id) transaction_id = none := by
  refine ⟨?_, memoryLoad_memoryDelete_self _ _⟩
  unfold check
  rw [hload]
  simp only [hres, haction, isTerminal]
  rfl

/-- Witness for C1's amended claim at a concrete one-entry storage and an
empty registry. -/
theorem check_missing_action_is_silent_witness :
    memoryLoad
        [("tid-2", ⟨⟨"ref-2", "ast", "qt", "qs", 0⟩, .sign, "REMOVED", "c"⟩)]
        "tid-2" =
      some (⟨⟨"ref-2", "ast", "qt", "qs", 0⟩, .sign, "REMOVED", "c"⟩ : Transaction) ∧
    (fun _ => CollectResponse.CompleteCollect "ref-2"
        ⟨⟨"190000000000", "A B", "A", "B"⟩, ⟨"10.0.0.1", none⟩, "2024-01-01",
         none, "sig", "ocsp"⟩ : String → CollectResponse)
      (⟨⟨"ref-2", "ast", "qt", "qs", 0⟩, .sign, "REMOVED",
        "c"⟩ : Transaction).order_response.order_ref =
      .CompleteCollect "ref-2"
        ⟨⟨"190000000000", "A B", "A", "B"⟩, ⟨"10.0.0.1", none⟩, "2024-01-01",
         none, "sig", "ocsp"⟩ ∧
    List.lookup ((⟨⟨"ref-2", "ast", "qt", "qs", 0⟩, .sign, "REMOVED",
        "c"⟩ : Transaction).operation,
      (⟨⟨"ref-2", "ast", "qt", "qs", 0⟩, .sign, "REMOVED",
        "c"⟩ : Transaction).action_name) ([] : ActionRegistry) = none ∧
    (check
        (fun _ => .CompleteCollect "ref-2"
          ⟨⟨"190000000000", "A B", "A", "B"⟩, ⟨"10.0.0.1", none⟩, "2024-01-01",
           none, "sig", "ocsp"⟩)
        []
        [("tid-2", ⟨⟨"ref-2", "ast", "qt", "qs", 0⟩, .sign, "REMOVED", "c"⟩)]
        "tid-2" 0 =
      (.ok (.CompleteCollect "ref-2"
          ⟨⟨"190000000000", "A B", "A", "B"⟩, ⟨"10.0.0.1", none⟩, "2024-01-01",
           none, "sig", "ocsp"⟩, none),
       memoryDelete
         [("tid-2", ⟨⟨"ref-2", "ast", "qt", "qs", 0⟩, .sign, "REMOVED", "c"⟩)]
         "tid-2",
       [.collectCall "ref-2", .storageDelete "tid-2"]) ∧
      memoryLoad
        (memoryDelete
          [("tid-2", ⟨⟨"ref-2", "ast", "qt", "qs", 0⟩, .sign, "REMOVED", "c"⟩)]
          "tid-2") "tid-2" = none) :=
  ⟨by decide, rfl, by decide,
   check_missing_action_is_silent _ _ _ _ 0
     ⟨⟨"ref-2", "ast", "qt", "qs", 0⟩, .sign, "REMOVED", "c"⟩ "ref-2"
     ⟨⟨"190000000000", "A B", "A", "B"⟩, ⟨"10.0.0.1", none⟩, "2024-01-01",
      none, "sig", "ocsp"⟩ (by decide) rfl (by decide)⟩

/-- Claim C3's divergence, evaluated: `init_auth` mints its own
identifier ("engine-uuid") and returns it to the caller while the store
mints a different identifier ("store-uuid") under which the transaction
is actually persisted, because the source discards the return value of
`config.STORAGE.save`; the identifier handed to the caller is not
loadable from storage. -/
theorem init_auth_engine_mints_id :
    init_auth "engine-uuid" "store-uuid"
        ⟨"order-ref", "auto-start", "qr-token", "qr-secret", 0⟩ "LOGIN" "ctx" [] =
      (⟨"engine-uuid", "auto-start"⟩,
       [("store-uuid",
         ⟨⟨"order-ref", "auto-start", "qr-token", "qr-secret", 0⟩, .auth,
          "LOGIN", "ctx"⟩)]) ∧
    memoryLoad
        (init_auth "engine-uuid" "store-uuid"
          ⟨"order-ref", "auto-start", "qr-token", "qr-secret", 0⟩ "LOGIN" "ctx"
          []).2 "engine-uuid" = none ∧
    ("engine-uuid" : String) ≠ "store-uuid" := by
  decide

/-- Claim C10: `acheck` does not follow the sync `check`'s error
contract. A transaction id absent from storage trips the bare assertion
`assert transaction is not None` — not `TransactionExpired` — with no
provider call; and a `CompleteCollect` result whose action key is not
registered raises the mapping lookup error of `config.ACTIONS[...]`
(after the transaction has already been deleted). -/
theorem acheck_error_contract :
    (∀ (collect : String → CollectResponse) (actions : ActionRegistry)
        (storage : StorageState) (transaction_id : String) (now : ℚ),
        memoryLoad storage transaction_id = none →
        acheck collect actions storage transaction_id now =
          (.error .assertTransactionFailed, storage, []) ∧
        CheckFailure.assertTransactionFailed ≠ CheckFailure.transactionExpired) ∧
    (∀ (collect : String → CollectResponse) (actions : ActionRegistry)
        (storage : StorageState) (transaction_id : String) (now : ℚ)
        (t : Transaction) (ref : String) (cd : CompletionData),
        memoryLoad storage transaction_id = some t →
        collect t.order_response.order_ref = .CompleteCollect ref cd →
        List.lookup (t.operation, t.action_name) actions = none →
        acheck collect actions storage transaction_id now =
          (.error (.actionKeyError (t.operation, t.action_name)),
           memoryDelete storage transaction_id,
           [.collectCall t.order_response.order_ref,
            .storageDelete transaction_id])) := by
  constructor
  · intro collect actions storage transaction_id now h
    refine ⟨?_, by decide⟩
    unfold acheck
    rw [h]
  · intro collect actions storage transaction_id now t ref cd hload hres haction
    unfold acheck
    rw [hload]
    simp only [hres, haction, isTerminal]
    rfl

/-- Witness for C10 at concrete inputs for both async failure modes. -/
theorem acheck_error_contract_witness :
    (memoryLoad [] "tid-3" = none ∧
      acheck (fun r => .PendingCollect r .STARTED) [] [] "tid-3" 0 =
        (.error .assertTransactionFailed, [], []) ∧
      CheckFailure.assertTransactionFailed ≠ CheckFailure.transactionExpired) ∧
    (memoryLoad
        [("tid-4", ⟨⟨"ref-4", "ast", "qt", "qs", 0⟩, .auth, "DROPPED", "c"⟩)]
        "tid-4" =
      some (⟨⟨"ref-4", "ast", "qt", "qs", 0⟩, .auth, "DROPPED", "c"⟩ :
        Transaction) ∧
      acheck
        (fun _ => .CompleteCollect "ref-4"
          ⟨⟨"190000000000", "A B", "A", "B"⟩, ⟨"10.0.0.2", none⟩, "2024-02-02",
           none, "sig", "ocsp"⟩)
        []
        [("tid-4", ⟨⟨"ref-4", "ast", "qt", "qs", 0⟩, .auth, "DROPPED", "c"⟩)]
        "tid-4" 0 =
        (.error (.actionKeyError (.auth, "DROPPED")),
         memoryDelete
           [("tid-4", ⟨⟨"ref-4", "ast", "qt", "qs", 0⟩, .auth, "DROPPED", "c"⟩)]
           "tid-4",
         [.collectCall "ref-4", .storageDelete "tid-4"])) :=
  ⟨⟨by decide,
    (acheck_error_contract.1 (fun r => .PendingCollect r .STARTED) [] [] "tid-3" 0
      (by decide)).1,
    (acheck_error_contract.1 (fun r => .PendingCollect r .STARTED) [] [] "tid-3" 0
      (by decide)).2⟩,
   ⟨by decide,
    acheck_error_contract.2
      (fun _ => .CompleteCollect "ref-4"
        ⟨⟨"190000000000", "A B", "A", "B"⟩, ⟨"10.0.0.2", none⟩, "2024-02-02",
         none, "sig", "ocsp"⟩)
      [] [("tid-4", ⟨⟨"ref-4", "ast", "qt", "qs", 0⟩, .auth, "DROPPED", "c"⟩)]
      "tid-4" 0 ⟨⟨"ref-4", "ast", "qt", "qs", 0⟩, .auth, "DROPPED", "c"⟩ "ref-4"
      ⟨⟨"190000000000", "A B", "A", "B"⟩, ⟨"10.0.0.2", none⟩, "2024-02-02",
       none, "sig", "ocsp"⟩ (by decide) rfl (by decide)⟩⟩

/-- Claim C2: a `check` call on a stored transaction deletes it from
storage exactly when the decoded collect result is terminal
(`CompleteCollect` or `FailedCollect`) — a `PendingCollect` result leaves
storage unchanged with no deletion event — and in the event trace every
finalize dispatch comes strictly after the storage deletion. -/
theorem check_terminal_delete_before_finalize
    (collect : String → CollectResponse) (actions : ActionRegistry)
    (storage : StorageState) (transaction_id : String) (now : ℚ)
    (t : Transaction) (hload : memoryLoad storage transaction_id = some t) :
    (isTerminal (collect t.order_response.order_ref) = true →
        (check collect actions storage transaction_id now).2.1 =
          memoryDelete storage transaction_id ∧
        Event.storageDelete transaction_id ∈
          (check collect actions storage transaction_id now).2.2) ∧
    (isTerminal (collect t.order_response.order_ref) = false →
        (check collect actions storage transaction_id now).2.1 = storage ∧
        Event.storageDelete transaction_id ∉
          (check collect actions storage transaction_id now).2.2) ∧
    (((check collect actions storage transaction_id now).2.2.findIdx?
        isFinalizeEvent).all fun jf =>
      (((check collect actions storage transaction_id now).2.2.findIdx?
          isDeleteEvent).any fun jd => decide (jd < jf))) = true := by
  rcases hr : collect t.order_response.order_ref with ⟨ref, hint⟩ | ⟨ref, cd⟩ | ⟨ref, hint⟩
  · have h21 : (check collect actions storage transaction_id now).2.1 = storage := by
      unfold check
      rw [hload]
      simp [hr, isTerminal]
    have h22 : (check collect actions storage transaction_id now).2.2 =
        [.collectCall t.order_response.order_ref] := by
      unfold check
      rw [hload]
      simp [hr, isTerminal]
    refine ⟨fun hterm => ?_, fun _ => ⟨h21, by rw [h22]; simp⟩, by rw [h22]; rfl⟩
    simp [isTerminal] at hterm
  · cases ha : List.lookup (t.operation, t.action_name) actions with
    | none =>
      have h21 : (check collect actions storage transaction_id now).2.1 =
          memoryDelete storage transaction_id := by
        unfold check
        rw [hload]
        simp [hr, ha, isTerminal]
      have h22 : (check collect actions storage transaction_id now).2.2 =
          [.collectCall t.order_response.order_ref,
           .storageDelete transaction_id] := by
        unfold check
        rw [hload]
        simp [hr, ha, isTerminal]
      refine ⟨fun _ => ⟨h21, by rw [h22]; simp⟩, fun hterm => ?_, by rw [h22]; rfl⟩
      simp [isTerminal] at hterm
    | some a =>
      have h21 : (check collect actions storage transaction_id now).2.1 =
          memoryDelete storage transaction_id := by
        unfold check
        rw [hload]
        simp [hr, ha, isTerminal]
      have h22 : (check collect actions storage transaction_id now).2.2 =
          [.collectCall t.order_response.order_ref,
           .storageDelete transaction_id,
           .finalizeCall t.operation t.action_name] := by
        unfold check
        rw [hload]
        simp [hr, ha, isTerminal]
      refine ⟨fun _ => ⟨h21, by rw [h22]; simp⟩, fun hterm => ?_, by rw [h22]; rfl⟩
      simp [isTerminal] at hterm
  · have h21 : (check collect actions storage transaction_id now).2.1 =
        memoryDelete storage transaction_id := by
      unfold check
      rw [hload]
      simp [hr, isTerminal]
    have h22 : (check collect actions storage transaction_id now).2.2 =
        [.collectCall t.order_response.order_ref,
         .storageDelete transaction_id] := by
      unfold check
      rw [hload]
      simp [hr, isTerminal]
    refine ⟨fun _ => ⟨h21, by rw [h22]; simp⟩, fun hterm => ?_, by rw [h22]; rfl⟩
    simp [isTerminal] at hterm

/-- Witness for C2 at a concrete terminal (complete) collect result with
a registered action. -/
theorem check_terminal_delete_before_finalize_witness :
    memoryLoad
        [("tid-5", ⟨⟨"ref-5", "ast", "qt", "qs", 0⟩, .auth, "LOGIN", "c"⟩)]
        "tid-5" =
      some (⟨⟨"ref-5", "ast", "qt", "qs", 0⟩, .auth, "LOGIN", "c"⟩ : Transaction) ∧
    ((isTerminal
        ((fun _ => CollectResponse.CompleteCollect "ref-5"
          ⟨⟨"190000000000", "A B", "A", "B"⟩, ⟨"10.0.0.3", none⟩, "2024-03-03",
           none, "sig", "ocsp"⟩ : String → CollectResponse)
          (⟨⟨"ref-5", "ast", "qt", "qs", 0⟩, .auth, "LOGIN",
            "c"⟩ : Transaction).order_response.order_ref) = true →
        (check
          (fun _ => .CompleteCollect "ref-5"
            ⟨⟨"190000000000", "A B", "A", "B"⟩, ⟨"10.0.0.3", none⟩, "2024-03-03",
             none, "sig", "ocsp"⟩)
          [((Operation.auth, "LOGIN"), ⟨false, "d"⟩)]
          [("tid-5", ⟨⟨"ref-5", "ast", "qt", "qs", 0⟩, .auth, "LOGIN", "c"⟩)]
          "tid-5" 0).2.1 =
          memoryDelete
            [("tid-5", ⟨⟨"ref-5", "ast", "qt", "qs", 0⟩, .auth, "LOGIN", "c"⟩)]
            "tid-5" ∧
        Event.storageDelete "tid-5" ∈
          (check
            (fun _ => .CompleteCollect "ref-5"
              ⟨⟨"190000000000", "A B", "A", "B"⟩, ⟨"10.0.0.3", none⟩,
               "2024-03-03", none, "sig", "ocsp"⟩)
            [((Operation.auth, "LOGIN"), ⟨false, "d"⟩)]
            [("tid-5", ⟨⟨"ref-5", "ast", "qt", "qs", 0⟩, .auth, "LOGIN", "c"⟩)]
            "tid-5" 0).2.2) ∧
      (isTerminal
        ((fun _ => CollectResponse.CompleteCollect "ref-5"
          ⟨⟨"190000000000", "A B", "A", "B"⟩, ⟨"10.0.0.3", none⟩, "2024-03-03",
           none, "sig", "ocsp"⟩ : String → CollectResponse)
          (⟨⟨"ref-5", "ast", "qt", "qs", 0⟩, .auth, "LOGIN",
            "c"⟩ : Transaction).order_response.order_ref) = false →
        (check
          (fun _ => .CompleteCollect "ref-5"
            ⟨⟨"190000000000", "A B", "A", "B"⟩, ⟨"10.0.0.3", none⟩, "2024-03-03",
             none, "sig", "ocsp"⟩)
          [((Operation.auth, "LOGIN"), ⟨false, "d"⟩)]
          [("tid-5", ⟨⟨"ref-5", "ast", "qt", "qs", 0⟩, .auth, "LOGIN", "c"⟩)]
          "tid-5" 0).2.1 =
          [("tid-5", ⟨⟨"ref-5", "ast", "qt", "qs", 0⟩, .auth, "LOGIN", "c"⟩)] ∧
        Event.storageDelete "tid-5" ∉
          (check
            (fun _ => .CompleteCollect "ref-5"
              ⟨⟨"190000000000", "A B", "A", "B"⟩, ⟨"10.0.0.3", none⟩,
               "2024-03-03", none, "sig", "ocsp"⟩)
            [((Operation.auth, "LOGIN"), ⟨false, "d"⟩)]
            [("tid-5", ⟨⟨"ref-5", "ast", "qt", "qs", 0⟩, .auth, "LOGIN", "c"⟩)]
            "tid-5" 0).2.2) ∧
      (((check
          (fun _ => .CompleteCollect "ref-5"
            ⟨⟨"190000000000", "A B", "A", "B"⟩, ⟨"10.0.0.3", none⟩, "2024-03-03",
             none, "sig", "ocsp"⟩)
          [((Operation.auth, "LOGIN"), ⟨false, "d"⟩)]
          [("tid-5", ⟨⟨"ref-5", "ast", "qt", "qs", 0⟩, .auth, "LOGIN", "c"⟩)]
          "tid-5" 0).2.2.findIdx? isFinalizeEvent).all fun jf =>
        (((check
            (fun _ => .CompleteCollect "ref-5"
              ⟨⟨"190000000000", "A B", "A", "B"⟩, ⟨"10.0.0.3", none⟩,
               "2024-03-03", none, "sig", "ocsp"⟩)
            [((Operation.auth, "LOGIN"), ⟨false, "d"⟩)]
            [("tid-5", ⟨⟨"ref-5", "ast", "qt", "qs", 0⟩, .auth, "LOGIN", "c"⟩)]
            "tid-5" 0).2.2.findIdx? isDeleteEvent).any fun jd =>
          decide (jd < jf))) = true) :=
  ⟨by decide,
   check_terminal_delete_before_finalize
     (fun _ => .CompleteCollect "ref-5"
       ⟨⟨"190000000000", "A B", "A", "B"⟩, ⟨"10.0.0.3", none⟩, "2024-03-03",
        none, "sig", "ocsp"⟩)
     [((Operation.auth, "LOGIN"), ⟨false, "d"⟩)]
     [("tid-5", ⟨⟨"ref-5", "ast", "qt", "qs", 0⟩, .auth, "LOGIN", "c"⟩)]
     "tid-5" 0 ⟨⟨"ref-5", "ast", "qt", "qs", 0⟩, .auth, "LOGIN", "c"⟩
     (by decide)⟩

set_option maxRecDepth 100000 in
/-- Known-answer check of the SHA-256 model (FIPS 180-2 test vector). -/
theorem sha256_known_answer :
    hexdigest (sha256 (strEncode "abc")) =
      "ba7816bf8f01cfea414140de5dae2223b00361a396177a9cb410ff61f20015ad" := by
  decide

set_option maxRecDepth 100000 in
/-- Known-answer check of the HMAC-SHA-256 model (RFC 2202-style test
vector). -/
theorem hmacSha256_known_answer :
    hexdigest (hmacSha256 (strEncode "key")
        (strEncode "The quick brown fox jumps over the lazy dog")) =
      "f7bc83f430538424b13298e6aa6fb143ef4d59a14946175997479dbc2d1a3cd8" := by
  decide

/-- Claim C8: for every order and every current instant, the generated QR
string is exactly `"bankid." + qr_start_token + "." + elapsed + "." +
HMAC-SHA256(key = qr_start_secret, msg = elapsed)` in lowercase hex,
where `elapsed` is the whole-second difference rendered in decimal; and
every character of the digest component is lowercase hexadecimal. -/
theorem generate_qr_code_format (order : OrderResponse) (now : ℚ) :
    generate_qr_code order now = qr_payload_spec order now ∧
    ((hexdigest (hmacSha256 (strEncode order.qr_start_secret)
        (strEncode (toString (ratTrunc (now - order.start_time)))))).data.all
      fun c => decide (c ∈ hexChars)) = true := by
  exact ⟨rfl, hexdigest_lower _⟩

end BankIDSDK
